import Mathlib

/-!
Verification development for the AI-narrated presentation player.

The model is a shallow embedding of the voice orchestration pipeline:
the `usePresenterVoice` hook (Deepgram STT + OpenAI GPT + ElevenLabs TTS
variant, with the programmatic Q&A flow state), its host `App` component
(auto-advance scheduling, return-slide bookkeeping, resume handling),
the ElevenLabs TTS playback queue, and the microphone PCM16 conversion.

Asynchronous callbacks are modelled as an event-step machine: each event
(speech start, utterance end, gateway completion, timer fire, speaking
change) is a function from the combined world state to a new state plus a
list of observable outbound effects.  Timers are modelled as pending
delays (in milliseconds) that a separate fire event consumes.  Network
calls to the reasoning gateway are modelled with an oracle outcome
delivered by a completion event, mirroring the `await` split in the code.
-/

namespace AIPresenter

/-! ## Characters and strings

JavaScript string helpers used by the orchestrator: `trim()`, the
case-insensitive anchored regex tests (`AFFIRMATIVE_RE`,
`RESUME_CONFIRM_RE`) and the unanchored `DOES_THAT_ANSWER_RE` test.
Whitespace is modelled as ASCII space, tab, CR and LF; word characters
(for the regex `\b` boundary) are ASCII letters, digits and underscore,
matching the inputs these patterns are applied to. -/

def isWsChar (c : Char) : Bool :=
  c == ' ' || c == '\t' || c == '\n' || c == '\r'

def isWordChar (c : Char) : Bool :=
  (('a' ≤ c) && (c ≤ 'z')) || (('A' ≤ c) && (c ≤ 'Z')) ||
  (('0' ≤ c) && (c ≤ '9')) || c == '_'

/-- ASCII lowercasing, as performed by the `i` regex flag on these
ASCII-only patterns. -/
def lowerChar (c : Char) : Char :=
  if 'A' ≤ c ∧ c ≤ 'Z' then Char.ofNat (c.toNat + 32) else c

/-- `String.prototype.trim()` on the modelled whitespace set. -/
def trimChars (l : List Char) : List Char :=
  ((l.dropWhile isWsChar).reverse.dropWhile isWsChar).reverse

def trimText (s : String) : String :=
  String.mk (trimChars s.data)

/-- Does `w` (already lowercase) match at the head of `l`
(case-insensitively), followed by a `\b` word boundary? -/
def matchWordAt : List Char → List Char → Bool
  | [], rest =>
    match rest with
    | [] => true
    | c :: _ => !isWordChar c
  | _ :: _, [] => false
  | a :: ws, b :: l => (a == lowerChar b) && matchWordAt ws l

/-- Anchored test `^\s*(w1|w2|...)\b` with the `i` flag. -/
def matchAnyStart (words : List (List Char)) (s : String) : Bool :=
  let l := s.data.dropWhile isWsChar
  words.any (fun w => matchWordAt w l)

/-- Case-insensitive prefix test (no boundary), for unanchored search. -/
def isPrefixLower : List Char → List Char → Bool
  | [], _ => true
  | _ :: _, [] => false
  | a :: ws, b :: l => (a == lowerChar b) && isPrefixLower ws l

/-- Case-insensitive substring test, for unanchored regex `test`. -/
def containsLower (pat : List Char) : List Char → Bool
  | [] => isPrefixLower pat []
  | l@(_ :: rest) => isPrefixLower pat l || containsLower pat rest

/-- The apostrophe character (for the `let'?s` alternatives). -/
def apos : Char := Char.ofNat 39

/-- Alternatives of `AFFIRMATIVE_RE`:
`/^\s*(yes|yeah|yep|yup|good|great|thanks|thank you|that helps|sure|ok|okay|perfect|awesome|got it|understood|correct|exactly|right|absolutely|definitely|of course|certainly)\b/i`. -/
def affirmativeWords : List (List Char) :=
  ["yes", "yeah", "yep", "yup", "good", "great", "thanks", "thank you",
   "that helps", "sure", "ok", "okay", "perfect", "awesome", "got it",
   "understood", "correct", "exactly", "right", "absolutely", "definitely",
   "of course", "certainly"].map String.data

/-- Alternatives of `RESUME_CONFIRM_RE`:
`/^\s*(yes|yeah|yep|yup|continue|sure|go ahead|please|ok|okay|carry on|resume|go on|let'?s go|let'?s continue|absolutely|of course|certainly|definitely)\b/i`.
The optional apostrophe in `let'?s` is expanded into both variants. -/
def resumeConfirmWords : List (List Char) :=
  (["yes", "yeah", "yep", "yup", "continue", "sure", "go ahead", "please",
    "ok", "okay", "carry on", "resume", "go on", "absolutely", "of course",
    "certainly", "definitely"].map String.data) ++
  [['l','e','t','s',' ','g','o'],
   ['l','e','t',apos,'s',' ','g','o'],
   ['l','e','t','s',' ','c','o','n','t','i','n','u','e'],
   ['l','e','t',apos,'s',' ','c','o','n','t','i','n','u','e']]

def affirmativeMatch (s : String) : Bool := matchAnyStart affirmativeWords s

def resumeConfirmMatch (s : String) : Bool := matchAnyStart resumeConfirmWords s

/-- `DOES_THAT_ANSWER_RE = /does that (answer|help)|answer your question/i`
as an unanchored substring test. -/
def doesThatAnswerMatch (s : String) : Bool :=
  containsLower "does that answer".data s.data ||
  containsLower "does that help".data s.data ||
  containsLower "answer your question".data s.data

/-- The effect of `aiResponse.replace(/[.!?]?\s*$/, '. ')`: remove trailing
whitespace and then at most one trailing `.`, `!` or `?` (the leftmost
match of that regex is exactly such a suffix), before `'. '` is glued on. -/
def stripTailForAppend (l : List Char) : List Char :=
  let r := l.reverse.dropWhile isWsChar
  let r2 :=
    match r with
    | c :: rest => if c == '.' || c == '!' || c == '?' then rest else r
    | [] => []
  r2.reverse

/-- Append "Does that answer your question?" when the model's reply does
not already ask it (onUtteranceEnd, normal Q&A path). -/
def ensureAnswerCheck (s : String) : String :=
  if doesThatAnswerMatch s then s
  else String.mk (stripTailForAppend s.data) ++ ". " ++ "Does that answer your question?"

/-! ## Data model -/

/-- A slide: 1-indexed position in the deck is implicit in list order.
Rendering-only fields (id, colors, images) are omitted. -/
structure Slide where
  title : String
  content : String
deriving DecidableEq, Repr

inductive Role
  | system
  | user
  | assistant
  | tool
deriving DecidableEq, Repr

/-- Message bodies.  The JSON strings pushed by the hook are abstracted
structurally: `systemPrompt` records the data the regenerated system
entry is built from (deck length, current slide, return-slide context);
`toolCallReq` is an assistant turn carrying tool invocations;
`toolResult` records the `success` flag and error/result tag of a tool
result turn. -/
inductive MsgBody
  | text (s : String)
  | systemPrompt (deckLen cur : Nat) (returnIdx : Option Nat)
  | toolCallReq (calls : List (String × Int))
  | toolResult (success : Bool) (tag : String)
deriving DecidableEq, Repr

structure ChatMsg where
  role : Role
  body : MsgBody
deriving DecidableEq, Repr

/-- Q&A flow state (`qaFlowStateRef`): `normal` /
`awaiting_answer_satisfied` / `awaiting_resume_confirm`. -/
inductive QAState
  | normal
  | awaitingAnswerSatisfied
  | awaitingResumeConfirm
deriving DecidableEq, Repr

/-- Orchestrator session state (`usePresenterVoice` refs). -/
structure Session where
  qaFlowState : QAState := .normal
  isProcessing : Bool := false
  isTTSSpeaking : Bool := false
  ignoreNextUtterance : Bool := false
  /-- pending echo-ignore safety timeout, as its delay in ms -/
  echoTimerMs : Option Nat := none
  isListening : Bool := false
  messages : List ChatMsg := []
  lastError : Option String := none
  slides : List Slide := []
  currentSlideIdx : Nat := 0
deriving DecidableEq, Repr

/-- Host (`App`) state: slide position, auto-advance scheduling and the
return-slide bookkeeping.  `lastSpoken = none` models the `-1` sentinel
of `lastSpokenSlideRef`. -/
structure HostState where
  slides : List Slide := []
  currentSlide : Nat := 0
  autoAdvancing : Bool := true
  /-- pending auto-advance timer, as its delay in ms -/
  advanceTimerMs : Option Nat := none
  lastSpoken : Option Nat := none
  returnSlide : Option Nat := none
  presentationStarted : Bool := true
  connected : Bool := true
deriving DecidableEq, Repr

/-- Observable outbound effects of one processed event. -/
inductive Effect
  | gatewayRequest (userText : String) (withTools : Bool)
  | speak (text : String)
  | transcriptOut (text : String) (role : Role)
  | navigate (slideNumber : Int)
  | resumeSignal
  | userSpeechStartSignal
deriving DecidableEq, Repr

/-- Combined world: host, session, and the number of reasoning-gateway
requests currently in flight. -/
structure World where
  host : HostState
  sess : Session
  inFlight : Nat := 0
deriving DecidableEq, Repr

def hasGatewayRequest (effs : List Effect) : Bool :=
  effs.any fun e =>
    match e with
    | .gatewayRequest _ _ => true
    | _ => false

def hasNavigateEffect (effs : List Effect) : Bool :=
  effs.any fun e =>
    match e with
    | .navigate _ => true
    | _ => false

/-! ## Host (`App`) operations -/

/-- `clearAdvanceTimeout`: cancel the pending auto-advance timer. -/
def clearAdvanceTimeout (h : HostState) : HostState :=
  { h with advanceTimerMs := none }

/-- `scheduleAdvance`: clear any pending timer, then schedule a single
advance after the fixed 2000 ms settle delay. -/
def scheduleAdvance (h : HostState) : HostState :=
  { clearAdvanceTimeout h with advanceTimerMs := some 2000 }

/-- Firing of the auto-advance timer: the timer slot empties and, when
auto-advance is still active, `setCurrentSlide(prev => prev <
slides.length - 1 ? prev + 1 : prev)` runs. -/
def advanceTimerFire (h : HostState) : HostState :=
  match h.advanceTimerMs with
  | none => h
  | some _ =>
    let h2 := { h with advanceTimerMs := none }
    if h2.autoAdvancing then
      if h2.currentSlide < h2.slides.length - 1 then
        { h2 with currentSlide := h2.currentSlide + 1 }
      else h2
    else h2

/-- `App`'s `onSpeakingChange` handler: on a transition to not-speaking
while auto-advance is active, schedule the advance. -/
def hostOnSpeakingChange (speaking : Bool) (h : HostState) : HostState :=
  if speaking = false ∧ h.autoAdvancing = true then scheduleAdvance h else h

/-- Condition of the auto-narrate effect in `App`: the current slide is
(re-)narrated whenever it differs from the last spoken slide while
auto-advancing. -/
def shouldNarrate (h : HostState) : Bool :=
  h.presentationStarted && h.connected && decide (0 < h.slides.length) &&
  h.autoAdvancing && decide (h.currentSlide < h.slides.length) &&
  !(h.lastSpoken == some h.currentSlide)

/-- `App`'s `onUserSpeechStart` handler: when auto-advance is active,
capture the current slide as the return slide, pause auto-advance and
cancel any scheduled advance. -/
def worldUserSpeechStart (w : World) : World :=
  if w.host.autoAdvancing then
    { w with host := { w.host with
        returnSlide := some w.host.currentSlide,
        autoAdvancing := false,
        advanceTimerMs := none } }
  else w

/-- `App`'s `onResume` handler: cancel the pending advance, clear the
return slide, re-enable auto-advance, reset `lastSpokenSlideRef` to its
`-1` sentinel to force re-narration and, when a return slide was stored,
navigate back to it (also refreshing the orchestrator's context). -/
def worldOnResume (w : World) : World :=
  let returnTo := w.host.returnSlide
  let h := { w.host with
      advanceTimerMs := none,
      returnSlide := none,
      autoAdvancing := true,
      lastSpoken := none }
  match returnTo with
  | none => { w with host := h }
  | some r =>
    { w with
        host := { h with currentSlide := r },
        sess := { w.sess with slides := w.host.slides, currentSlideIdx := r } }

/-- `App`'s `onNavigate` handler: for an in-range 1-based slide number,
mark the target as last spoken, refresh the orchestrator context and
display the target slide; out-of-range requests are ignored. -/
def worldNavigate (slideNumber : Int) (w : World) : World :=
  let idx := slideNumber - 1
  if 0 ≤ idx ∧ idx < (w.host.slides.length : Int) then
    { w with
        host := { w.host with lastSpoken := some idx.toNat, currentSlide := idx.toNat },
        sess := { w.sess with slides := w.host.slides, currentSlideIdx := idx.toNat } }
  else w

/-! ## Orchestrator operations (`usePresenterVoice`, part of `sendToOpenAI`) -/

/-- Regenerate-or-insert the system entry at the head of the history
(`sendToOpenAI`, start): replaced in place when present, prepended
otherwise. -/
def updateSystemMsg (sysMsg : ChatMsg) (msgs : List ChatMsg) : List ChatMsg :=
  match msgs with
  | [] => [sysMsg]
  | m :: rest => if m.role = .system then sysMsg :: rest else sysMsg :: m :: rest

/-- History truncation: when more than 22 entries, keep the system head
plus the most recent 20. -/
def truncateMsgs (msgs : List ChatMsg) : List ChatMsg :=
  if msgs.length > 22 then msgs.take 1 ++ msgs.drop (msgs.length - 20) else msgs

/-- Resolution of one tool invocation inside `sendToOpenAI`.  Mirrors the
JavaScript guard `fn.name === 'navigate_to_slide' && args.slide_number`
(where `0` is falsy), the 1-based range check against the deck length,
and the failure tool-results (`Invalid slide number` / `Unknown
function`) pushed in the other branches. -/
def handleOneToolCall (w : World) (call : String × Int) : World × List Effect :=
  let name := call.1
  let arg := call.2
  if name = "navigate_to_slide" ∧ arg ≠ 0 then
    if 1 ≤ arg ∧ arg ≤ (w.sess.slides.length : Int) then
      let w1 := worldNavigate arg w
      ({ w1 with sess := { w1.sess with
            currentSlideIdx := (arg - 1).toNat,
            messages := w1.sess.messages ++ [ChatMsg.mk .tool (.toolResult true "navigated")] } },
       [Effect.navigate arg])
    else
      ({ w with sess := { w.sess with
            messages := w.sess.messages ++ [ChatMsg.mk .tool (.toolResult false "Invalid slide number")] } },
       [])
  else
    ({ w with sess := { w.sess with
          messages := w.sess.messages ++ [ChatMsg.mk .tool (.toolResult false "Unknown function")] } },
     [])

def handleToolCalls (w : World) : List (String × Int) → World × List Effect
  | [] => (w, [])
  | c :: rest =>
    let r := handleOneToolCall w c
    let r2 := handleToolCalls r.1 rest
    (r2.1, r.2 ++ r2.2)

/-- Reasoning-gateway outcome oracle for one utterance request:
transport/HTTP failure (caught, sets the error field, returns null), a
response with no content, a plain text reply, or tool invocations
followed by the text-only follow-up (`sendToOpenAI_internal`) result. -/
inductive GWOutcome
  | failure (msg : String)
  | noContent
  | reply (text : String)
  | toolCalls (calls : List (String × Int)) (followUp : Option String)
deriving DecidableEq, Repr

def resumePromptText : String :=
  "Shall I resume the presentation from where I left off?"

/-- The response block of `onUtteranceEnd` once `sendToOpenAI` returned
text: ensure the answer-check question, caption it, enter
`awaiting_answer_satisfied` and speak it. -/
def gatewayRespond (t : String) (w : World) : World × List Effect :=
  let fullResponse := ensureAnswerCheck t
  ({ w with sess := { w.sess with qaFlowState := .awaitingAnswerSatisfied } },
   [Effect.transcriptOut fullResponse .assistant, Effect.speak fullResponse])

/-- Completion of the in-flight gateway request for an utterance: the
remainder of `onUtteranceEnd` after `await sendToOpenAI(trimmed, false)`,
including `sendToOpenAI`'s own response/tool handling and the `finally`
that releases the processing guard.  A completion with no request in
flight is a no-op. -/
def gatewayDone (out : GWOutcome) (w : World) : World × List Effect :=
  if w.inFlight = 0 then (w, [])
  else
    let w0 := { w with inFlight := w.inFlight - 1 }
    match out with
    | .failure msg =>
      ({ w0 with sess := { w0.sess with lastError := some msg, isProcessing := false } }, [])
    | .noContent =>
      ({ w0 with sess := { w0.sess with isProcessing := false } }, [])
    | .reply t =>
      let w1 := { w0 with sess := { w0.sess with
          messages := w0.sess.messages ++ [ChatMsg.mk .assistant (.text t)] } }
      let r := gatewayRespond t w1
      ({ r.1 with sess := { r.1.sess with isProcessing := false } }, r.2)
    | .toolCalls calls followUp =>
      let w1 := { w0 with sess := { w0.sess with
          messages := w0.sess.messages ++ [ChatMsg.mk .assistant (.toolCallReq calls)] } }
      let r := handleToolCalls w1 calls
      match followUp with
      | none =>
        ({ r.1 with sess := { r.1.sess with isProcessing := false } }, r.2)
      | some t =>
        let w2 := { r.1 with sess := { r.1.sess with
            messages := r.1.sess.messages ++ [ChatMsg.mk .assistant (.text t)] } }
        let r2 := gatewayRespond t w2
        ({ r2.1 with sess := { r2.1.sess with isProcessing := false } }, r.2 ++ r2.2)

/-- `onUtteranceEnd(fullText)` up to (and including) issuing the gateway
request.  The echo-ignore flag drops the utterance first; empty-after-trim
text and the processing guard drop it next; the two programmatic Q&A
shortcuts run entirely in code; otherwise the Q&A state resets to normal,
the host is notified of user speech, the history gains the regenerated
system entry and the user turn (then truncated) and a tools-enabled
gateway request goes out, leaving the processing guard held until
`gatewayDone`. -/
def utterEndEv (w0 : World) (fullText : String) : World × List Effect :=
  let w := { w0 with sess := { w0.sess with isListening := false } }
  if w.sess.ignoreNextUtterance then
    ({ w with sess := { w.sess with echoTimerMs := none, ignoreNextUtterance := false } }, [])
  else if trimText fullText = "" ∨ w.sess.isProcessing = true then
    (w, [])
  else
    let trimmed := trimText fullText
    let w1 := { w with sess := { w.sess with isProcessing := true } }
    let effs := [Effect.transcriptOut trimmed .user]
    if w1.sess.qaFlowState = .awaitingResumeConfirm ∧ resumeConfirmMatch trimmed = true then
      let w2 := { w1 with sess := { w1.sess with
          qaFlowState := .normal,
          messages := w1.sess.messages ++
            [ChatMsg.mk .user (.text trimmed), ChatMsg.mk .assistant (.text "Resuming the presentation now.")] } }
      let w3 := worldOnResume w2
      ({ w3 with sess := { w3.sess with isProcessing := false } },
       effs ++ [Effect.transcriptOut "Resuming the presentation." .assistant,
                Effect.resumeSignal])
    else if w1.sess.qaFlowState = .awaitingAnswerSatisfied ∧ affirmativeMatch trimmed = true then
      let w2 := { w1 with sess := { w1.sess with
          qaFlowState := .awaitingResumeConfirm,
          messages := w1.sess.messages ++
            [ChatMsg.mk .user (.text trimmed), ChatMsg.mk .assistant (.text resumePromptText)] } }
      ({ w2 with sess := { w2.sess with isProcessing := false } },
       effs ++ [Effect.transcriptOut resumePromptText .assistant,
                Effect.speak resumePromptText])
    else
      let w2 := { w1 with sess := { w1.sess with qaFlowState := .normal } }
      let w3 := worldUserSpeechStart w2
      let sysMsg : ChatMsg :=
        ChatMsg.mk .system (.systemPrompt w3.sess.slides.length w3.sess.currentSlideIdx w3.host.returnSlide)
      let msgs := truncateMsgs (updateSystemMsg sysMsg w3.sess.messages ++ [ChatMsg.mk .user (.text trimmed)])
      ({ w3 with sess := { w3.sess with messages := msgs }, inFlight := w3.inFlight + 1 },
       effs ++ [Effect.userSpeechStartSignal, Effect.gatewayRequest trimmed true])

/-- STT `onSpeechStart` handler: speech onset during TTS playback is
presumed echo — set the ignore flag and (re)arm the 2000 ms safety
timeout; otherwise clear any stale echo state and notify the host of
genuine user speech. -/
def onSpeechStartEv (w : World) : World × List Effect :=
  if w.sess.isTTSSpeaking then
    ({ w with sess := { w.sess with ignoreNextUtterance := true, echoTimerMs := some 2000 } }, [])
  else
    let w1 := { w with sess := { w.sess with ignoreNextUtterance := false, echoTimerMs := none } }
    (worldUserSpeechStart w1, [Effect.userSpeechStartSignal])

/-- Firing of the echo-ignore safety timeout: clears the flag. -/
def echoTimerFireEv (w : World) : World × List Effect :=
  match w.sess.echoTimerMs with
  | none => (w, [])
  | some _ =>
    ({ w with sess := { w.sess with echoTimerMs := none, ignoreNextUtterance := false } }, [])

/-- TTS `onSpeakingChange` as seen by the orchestrator and host: track
the TTS-speaking flag; the host schedules the auto-advance on the
transition to not-speaking while auto-advancing. -/
def speakingChangeEv (b : Bool) (w : World) : World × List Effect :=
  ({ w with
      sess := { w.sess with isTTSSpeaking := b },
      host := hostOnSpeakingChange b w.host }, [])

/-- Events of the voice session viewed from the orchestrator. -/
inductive Ev
  | speechStart
  | echoFire
  | utterEnd (text : String)
  | gwDone (out : GWOutcome)
  | speakingChange (b : Bool)
  | advanceFire
deriving Repr

def step (w : World) (e : Ev) : World × List Effect :=
  match e with
  | .speechStart => onSpeechStartEv w
  | .echoFire => echoTimerFireEv w
  | .utterEnd t => utterEndEv w t
  | .gwDone out => gatewayDone out w
  | .speakingChange b => speakingChangeEv b w
  | .advanceFire => ({ w with host := advanceTimerFire w.host }, [])

def run (w : World) (evs : List Ev) : World :=
  evs.foldl (fun w e => (step w e).1) w

/-- Session state after `connect()` on a fresh session. -/
def initWorld (slides : List Slide) : World :=
  { host := { slides := slides },
    sess := { slides := slides },
    inFlight := 0 }

/-! ## ElevenLabs TTS playback (`useElevenLabsTTS`)

Audio buffers are modelled by their duration in milliseconds.  The
observable output of each operation is the list of values passed to the
`onSpeakingChange` callback (deduplicated by `setSpeakingState`). -/

structure TTSState where
  isSpeakingRef : Bool := false
  queue : List Nat := []
  isPlaying : Bool := false
  isFetching : Bool := false
  currentSource : Option Nat := none
  /-- pending completion-fallback timeout, as its delay in ms -/
  fallbackTimerMs : Option Nat := none
deriving DecidableEq, Repr

/-- `setSpeakingState`: fire `onSpeakingChange` only on actual change. -/
def setSpeakingState (b : Bool) (t : TTSState) : TTSState × List Bool :=
  if t.isSpeakingRef ≠ b then ({ t with isSpeakingRef := b }, [b]) else (t, [])

/-- `playNext`: shift the queue; on empty queue stop playing, cancel the
fallback and — when fetching has finished — report playback complete. -/
def playNext (t : TTSState) : TTSState × List Bool :=
  match t.queue with
  | [] =>
    let t1 := { t with isPlaying := false, fallbackTimerMs := none }
    if t1.isFetching = false then setSpeakingState false t1 else (t1, [])
  | b :: rest =>
    ({ t with queue := rest, isPlaying := true, currentSource := some b }, [])

/-- `source.onended`: drop the finished source and play the next chunk. -/
def sourceEnded (t : TTSState) : TTSState × List Bool :=
  match t.currentSource with
  | none => (t, [])
  | some _ => playNext { t with currentSource := none }

/-- `enqueueAudio(buffer)`: cancel the fallback, push the buffer, report
speaking as soon as the first audio is enqueued, re-arm the fallback for
the buffer duration plus 500 ms, and start playback if idle. -/
def enqueueAudio (b : Nat) (t : TTSState) : TTSState × List Bool :=
  let t1 := { t with fallbackTimerMs := none, queue := t.queue ++ [b] }
  let r1 := if t1.isSpeakingRef = false then setSpeakingState true t1 else (t1, [])
  let t2 := { r1.1 with fallbackTimerMs := some (b + 500) }
  if t2.isPlaying = false then
    let r2 := playNext t2
    (r2.1, r1.2 ++ r2.2)
  else (t2, r1.2)

/-- Firing of the completion fallback: when it was still armed and the
speaking flag is still up, report playback complete. -/
def fallbackFire (t : TTSState) : TTSState × List Bool :=
  match t.fallbackTimerMs with
  | none => (t, [])
  | some _ =>
    let t1 := { t with fallbackTimerMs := none }
    if t1.isSpeakingRef then setSpeakingState false t1 else (t1, [])

/-- `stopPlayback`: cancel the fallback, abort any in-flight fetch, stop
and detach the current source (its `onended` is nulled first, so it can
emit nothing later), and flush the queue.  Does not touch the speaking
flag. -/
def stopPlayback (t : TTSState) : TTSState :=
  { t with
      fallbackTimerMs := none,
      currentSource := none,
      queue := [],
      isPlaying := false,
      isFetching := false }

/-- Public `stop()`: stop playback and force the speaking flag down. -/
def ttsStop (t : TTSState) : TTSState × List Bool :=
  setSpeakingState false (stopPlayback t)

/-- The synchronous head of `speak(text)`: stop any previous playback
(flushing its audio) before fetching the new audio. -/
def speakStartTTS (t : TTSState) : TTSState × List Bool :=
  ({ stopPlayback t with isFetching := true }, [])

/-- Resolution of `speak`'s fetch+decode with one decoded buffer. -/
def fetchSuccess (b : Nat) (t : TTSState) : TTSState × List Bool :=
  let r := enqueueAudio b t
  let t1 := { r.1 with isFetching := false }
  if t1.isPlaying = false ∧ t1.queue = [] then
    let r2 := setSpeakingState false t1
    (r2.1, r.2 ++ r2.2)
  else (t1, r.2)

/-- Run a sequence of TTS operations, concatenating the
`onSpeakingChange` emissions. -/
def ttsRun (t : TTSState) (ops : List (TTSState → TTSState × List Bool)) :
    TTSState × List Bool :=
  ops.foldl
    (fun acc f =>
      let r := f acc.1
      (r.1, acc.2 ++ r.2))
    (t, [])

def ttsInit : TTSState := {}

/-! ## Microphone PCM16 conversion (`useDeepgramSTT`)

`processor.onaudioprocess` converts each Float32 sample by clamping to
[-1, 1] and scaling by 0x8000 (negative) or 0x7FFF (non-negative).
Samples are modelled as rationals: the clamp comparisons are exact, the
scale by 0x8000 is exact (a power of two) and rounding of the 0x7FFF
product is monotone, so the rational bounds carry over to the Float32
computation; storing into an `Int16Array` truncates toward zero.  (A NaN
input is stored as 0, also in range.) -/

def clampUnit (x : ℚ) : ℚ := max (-1) (min 1 x)

/-- `s < 0 ? s * 0x8000 : s * 0x7FFF` after clamping. -/
def floatToPCM16 (x : ℚ) : ℚ :=
  let s := clampUnit x
  if s < 0 then s * 32768 else s * 32767

/-- Truncation toward zero, as performed when storing to `Int16Array`. -/
def truncRat (v : ℚ) : Int :=
  if 0 ≤ v then ⌊v⌋ else ⌈v⌉

def floatToInt16Sample (x : ℚ) : Int := truncRat (floatToPCM16 x)

/-! ## Concrete sessions used as test vectors -/

def slidesEx : List Slide :=
  [Slide.mk "Intro" "Welcome", Slide.mk "Budget" "Numbers", Slide.mk "Close" "Thanks"]

/-- Mid-deck host: slide 2 of 3 active, auto-advancing. -/
def hostEx : HostState :=
  { slides := slidesEx, currentSlide := 1, autoAdvancing := true }

/-- Final-slide host: slide 3 of 3 active, auto-advancing. -/
def hostExLast : HostState :=
  { slides := slidesEx, currentSlide := 2, autoAdvancing := true }

/-- Session that has just answered a question (paused on slide 2). -/
def wC2 : World :=
  { host := { slides := slidesEx, currentSlide := 1, autoAdvancing := false,
              returnSlide := some 1 },
    sess := { slides := slidesEx, currentSlideIdx := 1,
              qaFlowState := .awaitingAnswerSatisfied },
    inFlight := 0 }

/-- Session awaiting resume confirmation: the interruption happened on
slide 2 (`returnSlide = some 1`), which was already narrated
(`lastSpoken = some 1`), and Q&A navigated to slide 3. -/
def wC3 : World :=
  { host := { slides := slidesEx, currentSlide := 2, autoAdvancing := false,
              returnSlide := some 1, lastSpoken := some 1 },
    sess := { slides := slidesEx, currentSlideIdx := 2,
              qaFlowState := .awaitingResumeConfirm },
    inFlight := 0 }

/-- Session whose TTS is audibly playing. -/
def wC4 : World :=
  { host := { slides := slidesEx, currentSlide := 0, lastSpoken := some 0,
              returnSlide := none },
    sess := { slides := slidesEx, isTTSSpeaking := true },
    inFlight := 0 }

/-- Session in the middle of processing an utterance (gateway request in
flight). -/
def wC5 : World :=
  { host := { slides := slidesEx, currentSlide := 1, autoAdvancing := false },
    sess := { slides := slidesEx, currentSlideIdx := 1, isProcessing := true },
    inFlight := 1 }

/-- Session in a confirmation state about to receive an off-pattern
utterance followed by a gateway failure. -/
def c7World : World :=
  { host := { slides := slidesEx, currentSlide := 1, autoAdvancing := false,
              returnSlide := some 1 },
    sess := { slides := slidesEx, currentSlideIdx := 1,
              qaFlowState := .awaitingAnswerSatisfied },
    inFlight := 0 }

/-- Fresh connected session (normal mode, idle). -/
def c9World : World := initWorld slidesEx

/-- Serialization invariant maintained by the utterance pipeline: at
most one utterance-initiated reasoning-gateway request is in flight, and
whenever one is, the processing guard is held. -/
def gatewayInv (w : World) : Prop :=
  w.inFlight ≤ 1 ∧ (w.inFlight = 1 → w.sess.isProcessing = true)

/-! ## Helper lemmas -/

theorem hostOnSpeakingChange_false_active (h : HostState)
    (hauto : h.autoAdvancing = true) :
    hostOnSpeakingChange false h = { h with advanceTimerMs := some 2000 } := by
  simp [hostOnSpeakingChange, hauto, scheduleAdvance, clearAdvanceTimeout]

theorem advanceTimerFire_slides (g : HostState) :
    (advanceTimerFire g).slides = g.slides := by
  unfold advanceTimerFire
  cases hg : g.advanceTimerMs
  · rfl
  · simp only []
    split_ifs <;> rfl

theorem advanceTimerFire_at_boundary (g : HostState)
    (hc : ¬ g.currentSlide < g.slides.length - 1) :
    (advanceTimerFire g).currentSlide = g.currentSlide := by
  unfold advanceTimerFire
  cases hg : g.advanceTimerMs
  · rfl
  · simp [hc]

/-! ## Claims -/

/-- C1: for every deck of length N ≥ 1, when `onSpeakingChange(false)`
arrives after narrating slide i = j+1 (1-based) while auto-advance is
active, the host schedules exactly one pending advance with the fixed
2000 ms settle delay, and firing it moves the active slide from 0-based
j to j+1 (1-based i to i+1) when i < N; when the final slide is active
(0-based index N-1), no number of timer fires ever advances to a further
slide. -/
theorem C1_auto_advance :
    (∀ (h : HostState) (j : Nat),
        h.autoAdvancing = true → h.currentSlide = j → j + 1 < h.slides.length →
        (hostOnSpeakingChange false h).advanceTimerMs = some 2000 ∧
        advanceTimerFire (hostOnSpeakingChange false h) =
          { h with advanceTimerMs := none, currentSlide := j + 1 }) ∧
    (∀ (h : HostState) (k : Nat),
        h.autoAdvancing = true → h.currentSlide = h.slides.length - 1 →
        (advanceTimerFire^[k] (hostOnSpeakingChange false h)).currentSlide =
          h.slides.length - 1) := by
  constructor
  · intro h j hauto hcur hlt
    have hg := hostOnSpeakingChange_false_active h hauto
    refine ⟨by rw [hg], ?_⟩
    rw [hg]
    have hj : j < h.slides.length - 1 := Nat.lt_sub_of_add_lt hlt
    unfold advanceTimerFire
    simp [hauto, hcur, hj]
  · intro h k hauto hcur
    have hg := hostOnSpeakingChange_false_active h hauto
    rw [hg]
    have H : ∀ (k : Nat) (g : HostState), g.slides = h.slides →
        g.currentSlide = h.slides.length - 1 →
        (advanceTimerFire^[k] g).currentSlide = h.slides.length - 1 := by
      intro k
      induction k with
      | zero => intro g _ hc; simpa using hc
      | succ n ih =>
        intro g hs hc
        rw [Function.iterate_succ_apply]
        refine ih _ ?_ ?_
        · rw [advanceTimerFire_slides, hs]
        · have hb : ¬ g.currentSlide < g.slides.length - 1 := by
            rw [hc, hs]; exact lt_irrefl _
          rw [advanceTimerFire_at_boundary g hb, hc]
    exact H k _ rfl hcur

/-- Witness for C1 on a 3-slide deck: slide 2 of 3 advances to slide 3
after the 2000 ms timer; the final slide stays put over repeated fires. -/
theorem C1_auto_advance_witness :
    ((hostOnSpeakingChange false hostEx).advanceTimerMs = some 2000 ∧
     advanceTimerFire (hostOnSpeakingChange false hostEx) =
       { hostEx with advanceTimerMs := none, currentSlide := 2 }) ∧
    (advanceTimerFire^[3] (hostOnSpeakingChange false hostExLast)).currentSlide = 2 :=
  ⟨C1_auto_advance.1 hostEx 1 rfl rfl (by decide),
   C1_auto_advance.2 hostExLast 3 rfl rfl⟩

/-- C2: an utterance matching the affirmative pattern while the Q&A flow
state is `awaiting_answer_satisfied` produces no gateway request; the
fixed resume prompt is captioned and spoken, and the state moves to
`awaiting_resume_confirm`. -/
theorem C2_affirmative_shortcut (w : World) (text : String)
    (hqa : w.sess.qaFlowState = .awaitingAnswerSatisfied)
    (haff : affirmativeMatch (trimText text) = true)
    (hig : w.sess.ignoreNextUtterance = false)
    (hpr : w.sess.isProcessing = false)
    (hne : trimText text ≠ "") :
    (utterEndEv w text).2 =
      [Effect.transcriptOut (trimText text) .user,
       Effect.transcriptOut resumePromptText .assistant,
       Effect.speak resumePromptText] ∧
    hasGatewayRequest (utterEndEv w text).2 = false ∧
    (utterEndEv w text).1.sess.qaFlowState = .awaitingResumeConfirm ∧
    (utterEndEv w text).1.inFlight = w.inFlight := by
  unfold utterEndEv
  simp [hig, hpr, hne, hqa, haff, hasGatewayRequest]

/-- Witness for C2: "yes" after an answer. -/
theorem C2_affirmative_shortcut_witness :
    (utterEndEv wC2 "yes").2 =
      [Effect.transcriptOut (trimText "yes") .user,
       Effect.transcriptOut resumePromptText .assistant,
       Effect.speak resumePromptText] ∧
    hasGatewayRequest (utterEndEv wC2 "yes").2 = false ∧
    (utterEndEv wC2 "yes").1.sess.qaFlowState = .awaitingResumeConfirm ∧
    (utterEndEv wC2 "yes").1.inFlight = wC2.inFlight :=
  C2_affirmative_shortcut wC2 "yes" rfl (by decide) rfl rfl (by decide)

/-- C3: an utterance matching the resume pattern while awaiting resume
confirmation produces no gateway request, fires the resume signal,
clears the stored return slide, returns the flow state to normal,
re-enables auto-advance, navigates back to the stored return slide and
re-arms narration for it even though it was already marked narrated. -/
theorem C3_resume_shortcut (w : World) (text : String) (r : Nat)
    (hqa : w.sess.qaFlowState = .awaitingResumeConfirm)
    (hres : resumeConfirmMatch (trimText text) = true)
    (hig : w.sess.ignoreNextUtterance = false)
    (hpr : w.sess.isProcessing = false)
    (hne : trimText text ≠ "")
    (hret : w.host.returnSlide = some r)
    (hlast : w.host.lastSpoken = some r)
    (hr : r < w.host.slides.length)
    (hps : w.host.presentationStarted = true)
    (hcn : w.host.connected = true) :
    (utterEndEv w text).2 =
      [Effect.transcriptOut (trimText text) .user,
       Effect.transcriptOut "Resuming the presentation." .assistant,
       Effect.resumeSignal] ∧
    hasGatewayRequest (utterEndEv w text).2 = false ∧
    (utterEndEv w text).1.sess.qaFlowState = .normal ∧
    (utterEndEv w text).1.host.returnSlide = none ∧
    (utterEndEv w text).1.host.autoAdvancing = true ∧
    (utterEndEv w text).1.host.currentSlide = r ∧
    shouldNarrate (utterEndEv w text).1.host = true := by
  unfold utterEndEv worldOnResume
  simp [hig, hpr, hne, hqa, hres, hret, hasGatewayRequest, shouldNarrate,
        hps, hcn, hr, Nat.zero_lt_of_lt hr]

/-- Witness for C3: "continue" while awaiting resume confirmation with
return slide 2 of 3 stored and already narrated. -/
theorem C3_resume_shortcut_witness :
    (utterEndEv wC3 "continue").2 =
      [Effect.transcriptOut (trimText "continue") .user,
       Effect.transcriptOut "Resuming the presentation." .assistant,
       Effect.resumeSignal] ∧
    hasGatewayRequest (utterEndEv wC3 "continue").2 = false ∧
    (utterEndEv wC3 "continue").1.sess.qaFlowState = .normal ∧
    (utterEndEv wC3 "continue").1.host.returnSlide = none ∧
    (utterEndEv wC3 "continue").1.host.autoAdvancing = true ∧
    (utterEndEv wC3 "continue").1.host.currentSlide = 1 ∧
    shouldNarrate (utterEndEv wC3 "continue").1.host = true :=
  C3_resume_shortcut wC3 "continue" 1 rfl (by decide) rfl rfl (by decide)
    rfl rfl (by decide) rfl rfl

/-- C4: a speech-start during audible TTS playback only sets the
echo-ignore flag with its 2000 ms safety timeout (the host is not
notified); the utterance that ends that speech burst is dropped with no
effects — in particular no gateway request — leaving the Q&A flow state
and the return slide unchanged, and the flag is cleared both by the
dropped utterance and by the safety timeout, so it lives at most 2000 ms. -/
theorem C4_echo_ignored (w : World) (text : String)
    (hspeak : w.sess.isTTSSpeaking = true) :
    (onSpeechStartEv w).2 = [] ∧
    (onSpeechStartEv w).1.host = w.host ∧
    (onSpeechStartEv w).1.sess.ignoreNextUtterance = true ∧
    (onSpeechStartEv w).1.sess.echoTimerMs = some 2000 ∧
    (utterEndEv (onSpeechStartEv w).1 text).2 = [] ∧
    (utterEndEv (onSpeechStartEv w).1 text).1.sess.qaFlowState = w.sess.qaFlowState ∧
    (utterEndEv (onSpeechStartEv w).1 text).1.host.returnSlide = w.host.returnSlide ∧
    (utterEndEv (onSpeechStartEv w).1 text).1.sess.ignoreNextUtterance = false ∧
    (utterEndEv (onSpeechStartEv w).1 text).1.sess.echoTimerMs = none ∧
    (utterEndEv (onSpeechStartEv w).1 text).1.inFlight = w.inFlight ∧
    (echoTimerFireEv (onSpeechStartEv w).1).1.sess.ignoreNextUtterance = false ∧
    (echoTimerFireEv (onSpeechStartEv w).1).1.sess.echoTimerMs = none := by
  unfold onSpeechStartEv utterEndEv echoTimerFireEv
  simp [hspeak]

/-- The utterance pipeline events preserve the serialization invariant. -/
theorem handleOneToolCall_guard (w : World) (c : String × Int) :
    (handleOneToolCall w c).1.inFlight = w.inFlight ∧
    (handleOneToolCall w c).1.sess.isProcessing = w.sess.isProcessing := by
  unfold handleOneToolCall worldNavigate
  dsimp only
  split_ifs <;> simp

theorem handleToolCalls_guard (calls : List (String × Int)) :
    ∀ w : World, (handleToolCalls w calls).1.inFlight = w.inFlight ∧
      (handleToolCalls w calls).1.sess.isProcessing = w.sess.isProcessing := by
  induction calls with
  | nil => intro w; exact ⟨rfl, rfl⟩
  | cons c rest ih =>
    intro w
    have h1 := handleOneToolCall_guard w c
    have h2 := ih (handleOneToolCall w c).1
    refine ⟨?_, ?_⟩
    · show (handleToolCalls (handleOneToolCall w c).1 rest).1.inFlight = w.inFlight
      rw [h2.1, h1.1]
    · show (handleToolCalls (handleOneToolCall w c).1 rest).1.sess.isProcessing =
        w.sess.isProcessing
      rw [h2.2, h1.2]

theorem worldUserSpeechStart_guard (w : World) :
    (worldUserSpeechStart w).inFlight = w.inFlight ∧
    (worldUserSpeechStart w).sess = w.sess := by
  unfold worldUserSpeechStart
  split_ifs <;> exact ⟨rfl, rfl⟩

theorem gatewayDone_inFlight (out : GWOutcome) (w : World) (h0 : w.inFlight ≠ 0) :
    (gatewayDone out w).1.inFlight = w.inFlight - 1 := by
  unfold gatewayDone
  cases out with
  | failure msg => simp [h0]
  | noContent => simp [h0]
  | reply t => simp [h0, gatewayRespond]
  | toolCalls calls followUp =>
    cases followUp with
    | none =>
      simp only [h0, ite_false, if_neg, not_false_iff]
      exact (handleToolCalls_guard calls _).1
    | some t =>
      simp only [h0, ite_false, if_neg, not_false_iff, gatewayRespond]
      exact (handleToolCalls_guard calls _).1

theorem gatewayDone_inv (out : GWOutcome) (w : World) (h : gatewayInv w) :
    gatewayInv (gatewayDone out w).1 := by
  obtain ⟨h1, h2⟩ := h
  by_cases h0 : w.inFlight = 0
  · have heq : gatewayDone out w = (w, []) := by unfold gatewayDone; simp [h0]
    rw [heq]
    exact ⟨h1, h2⟩
  · have hq := gatewayDone_inFlight out w h0
    constructor
    · omega
    · intro hc
      exact absurd hc (by omega)

theorem utterEndEv_inv (w : World) (t : String) (h : gatewayInv w) :
    gatewayInv (utterEndEv w t).1 := by
  obtain ⟨h1, h2⟩ := h
  unfold utterEndEv
  by_cases hig : w.sess.ignoreNextUtterance
  · simpa [hig, gatewayInv] using ⟨h1, h2⟩
  · by_cases hdrop : trimText t = "" ∨ w.sess.isProcessing = true
    · simpa [hig, hdrop, gatewayInv] using ⟨h1, h2⟩
    · have hpr : w.sess.isProcessing = false := by
        cases hb : w.sess.isProcessing
        · rfl
        · exact absurd (Or.inr hb) hdrop
      have hf0 : w.inFlight = 0 := by
        by_cases hf : w.inFlight = 1
        · rw [h2 hf] at hpr; cases hpr
        · omega
      by_cases hb1 : w.sess.qaFlowState = .awaitingResumeConfirm ∧
          resumeConfirmMatch (trimText t) = true
      · cases hrs : w.host.returnSlide with
        | none => simp [hig, hdrop, hb1, worldOnResume, hrs, gatewayInv, hf0]
        | some r => simp [hig, hdrop, hb1, worldOnResume, hrs, gatewayInv, hf0]
      · by_cases hb2 : w.sess.qaFlowState = .awaitingAnswerSatisfied ∧
            affirmativeMatch (trimText t) = true
        · simp [hig, hdrop, hb1, hb2, gatewayInv, hf0]
        · unfold worldUserSpeechStart
          by_cases hau : w.host.autoAdvancing = true <;>
            simp [hig, hdrop, hb1, hb2, hau, gatewayInv, hf0]

theorem step_inv (w : World) (e : Ev) (h : gatewayInv w) :
    gatewayInv (step w e).1 := by
  cases e with
  | speechStart =>
    obtain ⟨h1, h2⟩ := h
    show gatewayInv (onSpeechStartEv w).1
    unfold onSpeechStartEv
    by_cases hts : w.sess.isTTSSpeaking
    · simpa [hts, gatewayInv] using ⟨h1, h2⟩
    · unfold worldUserSpeechStart
      by_cases hau : w.host.autoAdvancing = true <;>
        simpa [hts, hau, gatewayInv] using ⟨h1, h2⟩
  | echoFire =>
    obtain ⟨h1, h2⟩ := h
    show gatewayInv (echoTimerFireEv w).1
    unfold echoTimerFireEv
    cases hg : w.sess.echoTimerMs <;> simpa [gatewayInv] using ⟨h1, h2⟩
  | utterEnd t => exact utterEndEv_inv w t h
  | gwDone out => exact gatewayDone_inv out w h
  | speakingChange b =>
    obtain ⟨h1, h2⟩ := h
    show gatewayInv (speakingChangeEv b w).1
    unfold speakingChangeEv
    simpa [gatewayInv] using ⟨h1, h2⟩
  | advanceFire =>
    obtain ⟨h1, h2⟩ := h
    exact ⟨h1, h2⟩

/-- C5: an utterance-end arriving while the processing guard is held is
dropped — no effects at all (so no gateway request and nothing queued)
and no state change beyond the listening indicator; consequently, along
every event trace of the utterance pipeline from a fresh session, at
most one utterance-initiated reasoning-gateway request is ever in
flight. -/
theorem C5_serialized :
    (∀ (w : World) (text : String),
        w.sess.isProcessing = true → w.sess.ignoreNextUtterance = false →
        utterEndEv w text = ({ w with sess := { w.sess with isListening := false } }, [])) ∧
    (∀ (slides : List Slide) (evs : List Ev),
        (run (initWorld slides) evs).inFlight ≤ 1) := by
  constructor
  · intro w text hpr hig
    unfold utterEndEv
    simp [hig, hpr]
  · intro slides evs
    have H : ∀ (evs : List Ev) (w : World), gatewayInv w → gatewayInv (run w evs) := by
      intro evs
      induction evs with
      | nil => intro w h; exact h
      | cons e rest ih => intro w h; exact ih (step w e).1 (step_inv w e h)
    have h0 : gatewayInv (initWorld slides) := by
      exact ⟨by simp [initWorld], by intro hc; simp [initWorld] at hc⟩
    exact (H evs (initWorld slides) h0).1

/-- Witness for C5: a second utterance during processing is dropped
whole; a trace with two overlapping utterances keeps at most one request
in flight. -/
theorem C5_serialized_witness :
    utterEndEv wC5 "what about the budget" =
      ({ wC5 with sess := { wC5.sess with isListening := false } }, []) ∧
    (run (initWorld slidesEx)
        [Ev.utterEnd "what is this slide about",
         Ev.utterEnd "hello again",
         Ev.gwDone (.reply "It is the budget overview")]).inFlight ≤ 1 :=
  ⟨C5_serialized.1 wC5 "what about the budget" rfl rfl,
   C5_serialized.2 slidesEx
     [Ev.utterEnd "what is this slide about",
      Ev.utterEnd "hello again",
      Ev.gwDone (.reply "It is the budget overview")]⟩

/-- An out-of-range `navigate_to_slide` invocation appends exactly one
failure tool-result and produces no effect.  (`slide_number = 0` is
falsy in the JavaScript guard and lands in the unknown-function branch —
still a failure tool-result.) -/
theorem handleOneToolCall_invalid (w : World) (n : Int)
    (hout : n < 1 ∨ (w.sess.slides.length : Int) < n) :
    ∃ tag, handleOneToolCall w ("navigate_to_slide", n) =
      ({ w with sess := { w.sess with
          messages := w.sess.messages ++ [ChatMsg.mk .tool (.toolResult false tag)] } }, []) := by
  unfold handleOneToolCall
  by_cases hn0 : n = 0
  · exact ⟨"Unknown function", by simp [hn0]⟩
  · have hrange : ¬(1 ≤ n ∧ n ≤ (w.sess.slides.length : Int)) := by
      rintro ⟨ha, hb⟩
      rcases hout with hlt | hgt <;> omega
    exact ⟨"Invalid slide number", by simp [hn0, hrange]⟩

/-- C6: resolving a `navigate_to_slide` tool call whose slide number
lies outside `[1, N]` (in particular `0` and `N+1`) appends a failure
tool-result to the conversation history, emits no navigation effect, and
leaves the active slide (host and orchestrator copies) unchanged. -/
theorem C6_invalid_navigation (w : World) (n : Int) (followUp : Option String)
    (hf : w.inFlight ≠ 0)
    (hout : n < 1 ∨ (w.sess.slides.length : Int) < n) :
    hasNavigateEffect (gatewayDone (.toolCalls [("navigate_to_slide", n)] followUp) w).2 = false ∧
    (gatewayDone (.toolCalls [("navigate_to_slide", n)] followUp) w).1.host.currentSlide =
      w.host.currentSlide ∧
    (gatewayDone (.toolCalls [("navigate_to_slide", n)] followUp) w).1.sess.currentSlideIdx =
      w.sess.currentSlideIdx ∧
    ∃ rest tag,
      (gatewayDone (.toolCalls [("navigate_to_slide", n)] followUp) w).1.sess.messages =
        w.sess.messages ++ rest ∧
      ChatMsg.mk .tool (.toolResult false tag) ∈ rest := by
  obtain ⟨tag, htag⟩ := handleOneToolCall_invalid
    { w with
        inFlight := w.inFlight - 1,
        sess := { w.sess with
          messages := w.sess.messages ++ [ChatMsg.mk .assistant (.toolCallReq [("navigate_to_slide", n)])] } }
    n hout
  unfold gatewayDone handleToolCalls handleToolCalls
  cases followUp with
  | none =>
    simp only [hf, if_neg, ite_false, htag]
    refine ⟨by simp [hasNavigateEffect], by simp, by simp, ?_⟩
    exact ⟨[ChatMsg.mk .assistant (.toolCallReq [("navigate_to_slide", n)]),
            ChatMsg.mk .tool (.toolResult false tag)], tag, by simp, by simp⟩
  | some t =>
    simp only [hf, if_neg, ite_false, htag, gatewayRespond]
    refine ⟨by simp [hasNavigateEffect], by simp, by simp, ?_⟩
    exact ⟨[ChatMsg.mk .assistant (.toolCallReq [("navigate_to_slide", n)]),
            ChatMsg.mk .tool (.toolResult false tag),
            ChatMsg.mk .assistant (.text t)], tag, by simp, by simp⟩

/-- Witness for C6 on a 3-slide deck: slide numbers 0 and 4. -/
theorem C6_invalid_navigation_witness :
    (hasNavigateEffect (gatewayDone (.toolCalls [("navigate_to_slide", 0)] none) wC5).2 = false ∧
     (gatewayDone (.toolCalls [("navigate_to_slide", 0)] none) wC5).1.host.currentSlide =
       wC5.host.currentSlide ∧
     (gatewayDone (.toolCalls [("navigate_to_slide", 0)] none) wC5).1.sess.currentSlideIdx =
       wC5.sess.currentSlideIdx ∧
     ∃ rest tag,
       (gatewayDone (.toolCalls [("navigate_to_slide", 0)] none) wC5).1.sess.messages =
         wC5.sess.messages ++ rest ∧
       ChatMsg.mk .tool (.toolResult false tag) ∈ rest) ∧
    (hasNavigateEffect (gatewayDone (.toolCalls [("navigate_to_slide", 4)] none) wC5).2 = false ∧
     (gatewayDone (.toolCalls [("navigate_to_slide", 4)] none) wC5).1.host.currentSlide =
       wC5.host.currentSlide ∧
     (gatewayDone (.toolCalls [("navigate_to_slide", 4)] none) wC5).1.sess.currentSlideIdx =
       wC5.sess.currentSlideIdx ∧
     ∃ rest tag,
       (gatewayDone (.toolCalls [("navigate_to_slide", 4)] none) wC5).1.sess.messages =
         wC5.sess.messages ++ rest ∧
       ChatMsg.mk .tool (.toolResult false tag) ∈ rest) :=
  ⟨C6_invalid_navigation wC5 0 none (by decide) (by decide),
   C6_invalid_navigation wC5 4 none (by decide) (by decide)⟩

/-- C7 counterexample: an off-pattern utterance received in
`awaiting_answer_satisfied` is sent to the gateway, and when that
request fails the flow state has been reset to `normal` — it is *not*
left at its value from before the utterance, contradicting the claim as
stated. -/
theorem C7_counterexample :
    hasGatewayRequest (utterEndEv c7World "how about the next slide").2 = true ∧
    (gatewayDone (.failure "network error")
        (utterEndEv c7World "how about the next slide").1).1.sess.lastError =
      some "network error" ∧
    (gatewayDone (.failure "network error")
        (utterEndEv c7World "how about the next slide").1).1.sess.qaFlowState ≠
      c7World.sess.qaFlowState := by
  refine ⟨by decide, by decide, by decide⟩

/-- C7 (amended): when the gateway request issued for an utterance
fails, the turn aborts with no effects (nothing spoken, no resume, no
navigation), the error is surfaced in the last-error field, the
processing guard is released, and `mode` and `returnSlideIndex` keep the
values they had at the moment the request was issued — the failure
itself changes neither (mode is `normal` at that moment, any
confirmation state having already been reset before the request; and
when auto-advance was already paused the return slide is exactly its
pre-utterance value). -/
theorem C7_gateway_failure (w : World) (text msg : String)
    (hig : w.sess.ignoreNextUtterance = false)
    (hpr : w.sess.isProcessing = false)
    (hne : trimText text ≠ "")
    (hn1 : ¬(w.sess.qaFlowState = .awaitingResumeConfirm ∧
        resumeConfirmMatch (trimText text) = true))
    (hn2 : ¬(w.sess.qaFlowState = .awaitingAnswerSatisfied ∧
        affirmativeMatch (trimText text) = true)) :
    (utterEndEv w text).1.sess.qaFlowState = .normal ∧
    (gatewayDone (.failure msg) (utterEndEv w text).1).1.sess.qaFlowState = .normal ∧
    (gatewayDone (.failure msg) (utterEndEv w text).1).1.sess.lastError = some msg ∧
    (gatewayDone (.failure msg) (utterEndEv w text).1).1.host = (utterEndEv w text).1.host ∧
    (gatewayDone (.failure msg) (utterEndEv w text).1).2 = [] ∧
    (gatewayDone (.failure msg) (utterEndEv w text).1).1.sess.isProcessing = false ∧
    (w.host.autoAdvancing = false →
      (gatewayDone (.failure msg) (utterEndEv w text).1).1.host.returnSlide =
        w.host.returnSlide) := by
  unfold utterEndEv gatewayDone worldUserSpeechStart
  by_cases hau : w.host.autoAdvancing <;>
    simp [hig, hpr, hne, hn1, hn2, hau]

/-- Witness for C7 (amended): the counterexample session and utterance. -/
theorem C7_gateway_failure_witness :
    (utterEndEv c7World "how about the next slide").1.sess.qaFlowState = .normal ∧
    (gatewayDone (.failure "network error")
        (utterEndEv c7World "how about the next slide").1).1.sess.qaFlowState = .normal ∧
    (gatewayDone (.failure "network error")
        (utterEndEv c7World "how about the next slide").1).1.sess.lastError =
      some "network error" ∧
    (gatewayDone (.failure "network error")
        (utterEndEv c7World "how about the next slide").1).1.host =
      (utterEndEv c7World "how about the next slide").1.host ∧
    (gatewayDone (.failure "network error")
        (utterEndEv c7World "how about the next slide").1).2 = [] ∧
    (gatewayDone (.failure "network error")
        (utterEndEv c7World "how about the next slide").1).1.sess.isProcessing = false ∧
    (c7World.host.autoAdvancing = false →
      (gatewayDone (.failure "network error")
          (utterEndEv c7World "how about the next slide").1).1.host.returnSlide =
        c7World.host.returnSlide) :=
  C7_gateway_failure c7World "how about the next slide" "network error"
    rfl rfl (by decide) (by decide) (by decide)

/-- C8: a single `speak` whose audio plays to completion fires the
speaking callback true then false exactly once, with the completion
fallback disarmed at drain; `speakText` run twice in rapid succession
(`stop` of the first, then the second `speak`) emits
`[true, false, true, false]` — after the second call's playback drains
there is exactly one final `false`, not two, because the first source's
`onended` is detached when it is stopped; right after the stop — before
the second call's audio exists — the queue, the current source and the
fallback timer of the first call are all gone; and a bare second
`speak` interrupting the first without an explicit `stop` yields
`[true, false]`, one final `false` for the whole sequence. -/
theorem C8_speaking_transitions :
    (ttsRun ttsInit [speakStartTTS, fetchSuccess 3000, sourceEnded]).2 = [true, false] ∧
    (ttsRun ttsInit [speakStartTTS, fetchSuccess 3000, sourceEnded]).1.fallbackTimerMs = none ∧
    (ttsRun ttsInit
        [speakStartTTS, fetchSuccess 3000, ttsStop,
         speakStartTTS, fetchSuccess 2000, sourceEnded]).2 = [true, false, true, false] ∧
    (ttsRun ttsInit [speakStartTTS, fetchSuccess 3000, ttsStop]).1.queue = [] ∧
    (ttsRun ttsInit [speakStartTTS, fetchSuccess 3000, ttsStop]).1.currentSource = none ∧
    (ttsRun ttsInit [speakStartTTS, fetchSuccess 3000, ttsStop]).1.fallbackTimerMs = none ∧
    (ttsRun ttsInit
        [speakStartTTS, fetchSuccess 3000,
         speakStartTTS, fetchSuccess 2000, sourceEnded]).2 = [true, false] := by
  decide

/-- C9 counterexample: the punctuation-only (and below any minimum
length) utterance "." is *not* discarded — it reaches the reasoning
gateway from a fresh normal-mode session. -/
theorem C9_counterexample :
    trimText "." ≠ "" ∧
    hasGatewayRequest (utterEndEv c9World ".").2 = true ∧
    (utterEndEv c9World ".").1.inFlight = 1 := by
  refine ⟨by decide, by decide, by decide⟩

/-- C9 (amended): only utterances whose text trims to the empty string
(empty or whitespace-only) are discarded without invoking the reasoning
gateway and without any state change beyond the listening indicator —
in particular the Q&A flow state is untouched. -/
theorem C9_empty_dropped (w : World) (text : String)
    (hig : w.sess.ignoreNextUtterance = false)
    (hempty : trimText text = "") :
    utterEndEv w text = ({ w with sess := { w.sess with isListening := false } }, []) := by
  unfold utterEndEv
  simp [hig, hempty]

/-- Witness for C9 (amended): a whitespace-only utterance. -/
theorem C9_empty_dropped_witness :
    utterEndEv c9World "   " =
      ({ c9World with sess := { c9World.sess with isListening := false } }, []) :=
  C9_empty_dropped c9World "   " rfl (by decide)

/-- C10: the PCM16 conversion — clamp to [-1, 1] then scale by 0x8000
(negative) or 0x7FFF (non-negative), truncated on storage — produces a
sample in the Int16 range [-32768, 32767] for every input value. -/
theorem C10_pcm16_range (x : ℚ) :
    -32768 ≤ floatToInt16Sample x ∧ floatToInt16Sample x ≤ 32767 := by
  have hs1 : (-1 : ℚ) ≤ clampUnit x := le_max_left _ _
  have hs2 : clampUnit x ≤ 1 := max_le (by norm_num) (min_le_left _ _)
  unfold floatToInt16Sample floatToPCM16 truncRat
  dsimp only
  by_cases hneg : clampUnit x < 0
  · have hv1 : (-32768 : ℚ) ≤ clampUnit x * 32768 := by nlinarith
    have hv2 : clampUnit x * 32768 ≤ 0 := by nlinarith
    simp only [hneg, if_true]
    by_cases h0 : (0 : ℚ) ≤ clampUnit x * 32768
    · have hz : clampUnit x * 32768 = 0 := le_antisymm hv2 h0
      simp [h0, hz]
    · simp only [h0, if_false]
      constructor
      · have hc : ((-32768 : Int) : ℚ) ≤ clampUnit x * 32768 := by exact_mod_cast hv1
        calc (-32768 : Int) = ⌈((-32768 : Int) : ℚ)⌉ := (Int.ceil_intCast _).symm
          _ ≤ ⌈clampUnit x * 32768⌉ := Int.ceil_le_ceil hc
      · have hc : ⌈clampUnit x * 32768⌉ ≤ 0 := by
          rw [Int.ceil_le]
          exact_mod_cast hv2
        omega
  · have hpos : (0 : ℚ) ≤ clampUnit x := le_of_not_lt hneg
    have hv1 : (0 : ℚ) ≤ clampUnit x * 32767 := by positivity
    have hv2 : clampUnit x * 32767 ≤ 32767 := by nlinarith
    simp only [hneg, if_false, hv1, if_true]
    constructor
    · have hc : (0 : Int) ≤ ⌊clampUnit x * 32767⌋ := by
        rw [Int.le_floor]
        exact_mod_cast hv1
      omega
    · have hc : ((⌊clampUnit x * 32767⌋ : Int) : ℚ) ≤ 32767 :=
        le_trans (Int.floor_le _) hv2
      exact_mod_cast hc

/-- Witness for C4: echo during TTS playback of slide 1. -/
theorem C4_echo_ignored_witness :
    (onSpeechStartEv wC4).2 = [] ∧
    (onSpeechStartEv wC4).1.host = wC4.host ∧
    (onSpeechStartEv wC4).1.sess.ignoreNextUtterance = true ∧
    (onSpeechStartEv wC4).1.sess.echoTimerMs = some 2000 ∧
    (utterEndEv (onSpeechStartEv wC4).1 "uh").2 = [] ∧
    (utterEndEv (onSpeechStartEv wC4).1 "uh").1.sess.qaFlowState = wC4.sess.qaFlowState ∧
    (utterEndEv (onSpeechStartEv wC4).1 "uh").1.host.returnSlide = wC4.host.returnSlide ∧
    (utterEndEv (onSpeechStartEv wC4).1 "uh").1.sess.ignoreNextUtterance = false ∧
    (utterEndEv (onSpeechStartEv wC4).1 "uh").1.sess.echoTimerMs = none ∧
    (utterEndEv (onSpeechStartEv wC4).1 "uh").1.inFlight = wC4.inFlight ∧
    (echoTimerFireEv (onSpeechStartEv wC4).1).1.sess.ignoreNextUtterance = false ∧
    (echoTimerFireEv (onSpeechStartEv wC4).1).1.sess.echoTimerMs = none :=
  C4_echo_ignored wC4 "uh" rfl

end AIPresenter
